import Mathlib

/-!
Verification of the placement-and-collision constraint engine of the stand
configurator.  Numbers are modelled as exact rationals (`ℚ`); the JavaScript
`Math.round` is modelled as `⌊v + 1/2⌋`, which agrees with its
round-half-up semantics.  Rotations are recorded in units of π radians
(so `Math.PI / 2` is the rational `1/2`), keeping every definition
computable while preserving exactness.
-/

namespace Designer

/-! ## Collision module (`aabb.ts`): axis-aligned bounding boxes -/

structure Aabb where
  id : String
  label : String
  minX : ℚ
  maxX : ℚ
  minZ : ℚ
  maxZ : ℚ
deriving DecidableEq, Repr

def DEFAULT_CLEARANCE : ℚ := 0.2

/-- Predicate `intersects(a, b)`: negation of the four separating-interval tests,
exactly as in the source. -/
def intersects (a b : Aabb) : Bool :=
  !(decide (a.maxX ≤ b.minX) || decide (a.minX ≥ b.maxX) ||
    decide (a.maxZ ≤ b.minZ) || decide (a.minZ ≥ b.maxZ))

/-- Builder `makeAabb`: a box centred at `(x, z)` whose half extents are the half
footprint plus the clearance. -/
def makeAabb (id label : String) (x z width depth : ℚ)
    (clearance : ℚ := DEFAULT_CLEARANCE) : Aabb :=
  let halfW := width / 2 + clearance
  let halfD := depth / 2 + clearance
  { id := id, label := label,
    minX := x - halfW, maxX := x + halfW,
    minZ := z - halfD, maxZ := z + halfD }

/-- Scan `findCollision`: linear scan over `boxes`, skipping ignored ids,
returning the first intersecting box. -/
def findCollision (candidate : Aabb) (boxes : List Aabb)
    (ignored : List String := []) : Option Aabb :=
  match boxes with
  | [] => none
  | box :: rest =>
    if box.id ∈ ignored then findCollision candidate rest ignored
    else if intersects candidate box then some box
    else findCollision candidate rest ignored

structure CollisionOutcome where
  collided : Bool
  hit : Option Aabb
  candidate : Option Aabb
deriving DecidableEq, Repr

/-- Scan `findCollisionForMany`: first candidate/box pair that collides. -/
def findCollisionForMany (candidates boxes : List Aabb)
    (ignored : List String := []) : CollisionOutcome :=
  match candidates with
  | [] => { collided := false, hit := none, candidate := none }
  | c :: rest =>
    match findCollision c boxes ignored with
    | some hit => { collided := true, hit := some hit, candidate := some c }
    | none => findCollisionForMany rest boxes ignored

/-! ## Data model of the configuration store (fields the core reads) -/

structure OptPos where
  x : Option ℚ
  z : Option ℚ
deriving DecidableEq, Repr

inductive CounterVariant where
  | basic | premium | corner
deriving DecidableEq, Repr

structure CounterSize where
  w : Option ℚ
  d : Option ℚ
deriving DecidableEq, Repr

structure DetailedCounter where
  id : String
  variant : Option CounterVariant
  size : Option CounterSize
  position : Option OptPos
deriving DecidableEq, Repr

structure ScreenSize where
  w : Option ℚ
  h : Option ℚ
  t : Option ℚ
deriving DecidableEq, Repr

inductive Mount where
  | wall | truss | floor
deriving DecidableEq, Repr

inductive WallSide where
  | back | left | right
deriving DecidableEq, Repr

structure DetailedScreen where
  id : String
  size : Option ScreenSize
  mount : Option Mount
  wallSide : Option WallSide
  position : Option OptPos
  rotationY : Option ℚ
deriving DecidableEq, Repr

structure CabinCfg where
  enabled : Option Bool
  width : Option ℚ
  depth : Option ℚ
  position : Option OptPos
deriving DecidableEq, Repr

structure Modules where
  storageRoom : Bool
  cabin : Option CabinCfg
  counterVariant : Option CounterVariant
  countersDetailed : List DetailedCounter
  detailedScreens : List DetailedScreen
  truss : Bool
  trussOffset : Option OptPos
  collisionClearance : Option ℚ
deriving DecidableEq, Repr

structure StandConfig where
  width : ℚ
  depth : ℚ
  modules : Modules
deriving DecidableEq, Repr

/-! ## Scene AABB index (`buildSceneAabbs`) -/

def cabinAabbs (cfg : StandConfig) (clearance : ℚ) : List Aabb :=
  match cfg.modules.cabin with
  | none => []
  | some cabin =>
    if cabin.enabled.getD cfg.modules.storageRoom then
      let x := (cabin.position.bind (·.x)).getD
        (-cfg.width / 2 + (cabin.width.getD 1.5) / 2 + 0.25)
      let z := (cabin.position.bind (·.z)).getD
        (-cfg.depth / 2 + (cabin.depth.getD 1.5) / 2 + 0.25)
      [makeAabb "cabin" "Kabine" x z (cabin.width.getD 1.5) (cabin.depth.getD 1.5) clearance]
    else []

def counterAabb (cfgVariant : Option CounterVariant) (clearance : ℚ)
    (ctr : DetailedCounter) : Aabb :=
  let variant := ctr.variant.getD (cfgVariant.getD .basic)
  let w := (ctr.size.bind (·.w)).getD (if variant = .premium then 1.4 else 0.9)
  let d := (ctr.size.bind (·.d)).getD (if variant = .premium then 0.6 else 0.5)
  let x := (ctr.position.bind (·.x)).getD 0
  let z := (ctr.position.bind (·.z)).getD 0
  makeAabb ("ctr-d-" ++ ctr.id) "Counter" x z w d clearance

def screenAabb (clearance : ℚ) (scr : DetailedScreen) : Aabb :=
  let w := (scr.size.bind (·.w)).getD 0.9
  let t := (scr.size.bind (·.t)).getD 0.02
  let mount := scr.mount.getD .wall
  let wallSide := scr.wallSide.getD .back
  let x := (scr.position.bind (·.x)).getD 0
  let z := (scr.position.bind (·.z)).getD 0
  if mount = .wall then
    if wallSide = .left ∨ wallSide = .right then
      makeAabb ("scr-d-" ++ scr.id) "Screen" x z (if t = 0 then 0.05 else t) w clearance
    else
      makeAabb ("scr-d-" ++ scr.id) "Screen" x z w (if t = 0 then 0.05 else t) clearance
  else
    let depth := if mount = .floor then (if t = 0 then 0.1 else t) else w * 0.25
    makeAabb ("scr-d-" ++ scr.id) "Screen" x z w depth clearance

def trussAabbs (cfg : StandConfig) (clearance : ℚ) : List Aabb :=
  if cfg.modules.truss then
    let columnSize : ℚ := 0.12
    let offsetX := (cfg.modules.trussOffset.bind (·.x)).getD 0
    let offsetZ := (cfg.modules.trussOffset.bind (·.z)).getD 0
    let mk := fun (id : String) (x z : ℚ) =>
      makeAabb id "Truss-Stuetze" x z columnSize columnSize clearance
    [mk "truss-col-front-left" (-cfg.width / 2 + offsetX) (cfg.depth / 2 + offsetZ),
     mk "truss-col-front-right" (cfg.width / 2 + offsetX) (cfg.depth / 2 + offsetZ),
     mk "truss-col-back-left" (-cfg.width / 2 + offsetX) (-cfg.depth / 2 + offsetZ),
     mk "truss-col-back-right" (cfg.width / 2 + offsetX) (-cfg.depth / 2 + offsetZ)]
  else []

/-- Index derivation `buildSceneAabbs`: cabin box, then detailed counters, then detailed
screens, then the four truss support columns, in source push order. -/
def buildSceneAabbs (cfg : StandConfig) (clearance : ℚ := DEFAULT_CLEARANCE) : List Aabb :=
  cabinAabbs cfg clearance
    ++ cfg.modules.countersDetailed.map (counterAabb cfg.modules.counterVariant clearance)
    ++ cfg.modules.detailedScreens.map (screenAabb clearance)
    ++ trussAabbs cfg clearance

/-! ## Clamper (`clampXZ`, identical in `interactionRules.ts` and
`Configurator3D.tsx`) -/

structure XZ where
  x : ℚ
  z : ℚ
deriving DecidableEq, Repr

def clampXZ (x z width depth : ℚ) (halfW : ℚ := 0) (halfD : ℚ := 0) : XZ :=
  let minX := -width / 2 + halfW
  let maxX := width / 2 - halfW
  let minZ := -depth / 2 + halfD
  let maxZ := depth / 2 - halfD
  { x := min maxX (max minX x), z := min maxZ (max minZ z) }

/-- Effective collision clearance as read in `Configurator3D.tsx`:
`Math.max(0, typeof cc === "number" ? cc : DEFAULT_CLEARANCE)`.
`none` stands for an absent or non-numeric store field. -/
def effectiveCollisionClearance (cc : Option ℚ) : ℚ :=
  max 0 (cc.getD DEFAULT_CLEARANCE)

/-! ## Placement normalizer (`interactionRules.ts`) -/

inductive Level where
  | floor | wall
deriving DecidableEq, Repr

structure InteractionProfile where
  allowedLevels : List Level
  snapToNearestWall : Bool
  defaultRotation : Option ℚ
  rotationByWall : WallSide → Option ℚ
  gridSnap : Option ℚ

structure InteractionContext where
  width : ℚ
  depth : ℚ
  floorHeight : ℚ
  wallThickness : ℚ
  panelGap : ℚ
deriving DecidableEq, Repr

structure HalfSize where
  x : Option ℚ
  z : Option ℚ
deriving DecidableEq, Repr

structure WallPad where
  along : Option ℚ
  away : Option ℚ
deriving DecidableEq, Repr

structure WallPads where
  back : Option WallPad
  left : Option WallPad
  right : Option WallPad
deriving DecidableEq, Repr

def WallPads.get (p : WallPads) : WallSide → Option WallPad
  | .back => p.back
  | .left => p.left
  | .right => p.right

structure InteractionOptions where
  mount : Option Mount
  wallSide : Option WallSide
  halfSize : Option HalfSize
  wallSnapPadding : Option WallPads
deriving DecidableEq, Repr

structure InteractionResult where
  position : XZ
  rotationY : Option ℚ
  wallSide : Option WallSide
deriving DecidableEq, Repr

/-- Profile `interactionProfiles.counter`; rotations are in units of π radians
(`Math.PI / 2` is `1/2`). -/
def counterProfile : InteractionProfile :=
  { allowedLevels := [.floor], snapToNearestWall := false,
    defaultRotation := some 0, rotationByWall := fun _ => none,
    gridSnap := some 0.05 }

/-- Profile `interactionProfiles.screen`. -/
def screenProfile : InteractionProfile :=
  { allowedLevels := [.wall, .floor], snapToNearestWall := true,
    defaultRotation := some 0,
    rotationByWall := fun side =>
      match side with
      | .back => some 0
      | .left => some (1/2)
      | .right => some (-(1/2)),
    gridSnap := some 0.05 }

/-- Profile `interactionProfiles.cabin`. -/
def cabinProfile : InteractionProfile :=
  { allowedLevels := [.floor], snapToNearestWall := false,
    defaultRotation := some 0, rotationByWall := fun _ => none,
    gridSnap := none }

/-- Profile `interactionProfiles.truss`. -/
def trussProfile : InteractionProfile :=
  { allowedLevels := [.floor], snapToNearestWall := false,
    defaultRotation := some 0, rotationByWall := fun _ => none,
    gridSnap := some 0.05 }

/-- The chain `a ?? b` on optional numbers. -/
def orElseQ (a b : Option ℚ) : Option ℚ :=
  match a with
  | some v => some v
  | none => b

/-- Snapper `snapToGrid`: `Math.round(value / grid) * grid`; a missing or
non-positive grid leaves the value unchanged (`!grid` also catches 0). -/
def snapToGrid (value : ℚ) (grid : Option ℚ) : ℚ :=
  match grid with
  | none => value
  | some g => if g ≤ 0 then value else ⌊value / g + 1/2⌋ * g

/-- Resolver `findNearestWallSide`: stable ascending sort of the back/left/right
distances; ties keep insertion order (back, left, right). -/
def findNearestWallSide (pos : XZ) (context : InteractionContext) : WallSide :=
  let backZ := -context.depth / 2 + context.wallThickness + context.panelGap
  let leftX := -context.width / 2 + context.wallThickness + context.panelGap
  let rightX := context.width / 2 - context.wallThickness - context.panelGap
  let db := |pos.z - backZ|
  let dl := |pos.x - leftX|
  let dr := |pos.x - rightX|
  if db ≤ dl then (if db ≤ dr then .back else .right)
  else if dl ≤ dr then .left else .right

def applyInteractionRules (profile : InteractionProfile) (position : XZ)
    (context : InteractionContext) (options : InteractionOptions) :
    InteractionResult :=
  let mount := options.mount.getD .floor
  let px := snapToGrid position.x profile.gridSnap
  let pz := snapToGrid position.z profile.gridSnap
  let backZ := -context.depth / 2 + context.wallThickness + context.panelGap
  let leftX := -context.width / 2 + context.wallThickness + context.panelGap
  let rightX := context.width / 2 - context.wallThickness - context.panelGap
  if mount = .wall ∧ Level.wall ∈ profile.allowedLevels then
    let targetSide := options.wallSide.getD
      (if profile.snapToNearestWall then findNearestWallSide ⟨px, pz⟩ context else .back)
    let pad := options.wallSnapPadding.bind (fun p => p.get targetSide)
    let along := (orElseQ (pad.bind (·.along)) (options.halfSize.bind (·.x))).getD 0
    let away := (orElseQ (pad.bind (·.away)) (options.halfSize.bind (·.z))).getD 0.001
    let pos' :=
      match targetSide with
      | .back =>
        let z' := backZ + away
        let clamped := clampXZ px z' context.width context.depth along 0
        (⟨clamped.x, z'⟩ : XZ)
      | .left =>
        let x' := leftX + away
        let clamped := clampXZ x' pz context.width context.depth 0 along
        (⟨x', clamped.z⟩ : XZ)
      | .right =>
        let x' := rightX - away
        let clamped := clampXZ x' pz context.width context.depth 0 along
        (⟨x', clamped.z⟩ : XZ)
    { position := pos',
      rotationY := orElseQ (profile.rotationByWall targetSide) profile.defaultRotation,
      wallSide := some targetSide }
  else if Level.floor ∈ profile.allowedLevels then
    let halfX := (options.halfSize.bind (·.x)).getD 0
    let halfZ := (options.halfSize.bind (·.z)).getD 0
    let clamped := clampXZ px pz context.width context.depth halfX halfZ
    { position := clamped, rotationY := profile.defaultRotation,
      wallSide := options.wallSide }
  else
    { position := ⟨px, pz⟩, rotationY := profile.defaultRotation,
      wallSide := options.wallSide }

/-! ## Drag orchestration in `Configurator3D.tsx` (counter drag handler,
`ensureNoCollision`, rollback cache) -/

/-- UI-side state touched by one drag tick: the transient collision flags
and the rollback cache of last committed valid positions. -/
structure UiState where
  collidingKeys : List String
  lastValidPositions : List (String × XZ)
deriving DecidableEq, Repr

def lookupPos (key : String) : List (String × XZ) → Option XZ
  | [] => none
  | (k, v) :: rest => if k = key then some v else lookupPos key rest

def setPos (key : String) (v : XZ) (l : List (String × XZ)) : List (String × XZ) :=
  (key, v) :: l.filter (fun p => p.1 ≠ key)

def addKey (key : String) (l : List String) : List String :=
  if key ∈ l then l else key :: l

def removeKey (key : String) (l : List String) : List String :=
  l.filter (fun k => k ≠ key)

def counterKey (ctr : DetailedCounter) : String := "ctr-d-" ++ ctr.id

/-- Values `w`/`d` as computed in the counter render closure (same variant
defaulting as the scene index). -/
def counterW (cfgVariant : Option CounterVariant) (ctr : DetailedCounter) : ℚ :=
  (ctr.size.bind (·.w)).getD
    (if ctr.variant.getD (cfgVariant.getD .basic) = .premium then 1.4 else 0.9)

def counterD (cfgVariant : Option CounterVariant) (ctr : DetailedCounter) : ℚ :=
  (ctr.size.bind (·.d)).getD
    (if ctr.variant.getD (cfgVariant.getD .basic) = .premium then 0.6 else 0.5)

/-- The clamped drag target `c = clampXZ(pos.x, pos.z, width, depth, w/2, d/2)`. -/
def counterClamp (width depth : ℚ) (cfgVariant : Option CounterVariant)
    (ctr : DetailedCounter) (pos : XZ) : XZ :=
  clampXZ pos.x pos.z width depth (counterW cfgVariant ctr / 2) (counterD cfgVariant ctr / 2)

/-- The candidate box `makeAabb(key, "Counter", c.x, c.z, w, d, clearance)`. -/
def counterCandidate (width depth clearance : ℚ) (cfgVariant : Option CounterVariant)
    (ctr : DetailedCounter) (pos : XZ) : Aabb :=
  let c := counterClamp width depth cfgVariant ctr pos
  makeAabb (counterKey ctr) "Counter" c.x c.z
    (counterW cfgVariant ctr) (counterD cfgVariant ctr) clearance

/-- Result of one interactive move tick: new UI state, new committed
counter list, and the position shown on screen. -/
structure TickResult where
  ui : UiState
  counters : List DetailedCounter
  screenPos : XZ
deriving DecidableEq, Repr

/-- One `onChange` tick for a dragged detailed counter, combining
`ensureNoCollision` (ignore set `{key}`) with the commit-or-revert branch
of the handler. -/
def counterOnChange (width depth clearance : ℚ) (scene : List Aabb)
    (counters : List DetailedCounter) (cfgVariant : Option CounterVariant)
    (ctr : DetailedCounter) (ui : UiState) (pos : XZ) : TickResult :=
  let px := (ctr.position.bind (·.x)).getD 0
  let pz := (ctr.position.bind (·.z)).getD 0
  let key := counterKey ctr
  let c := counterClamp width depth cfgVariant ctr pos
  let candidate := counterCandidate width depth clearance cfgVariant ctr pos
  let collision := findCollisionForMany [candidate] scene [key]
  if collision.collided then
    { ui := { collidingKeys := addKey key ui.collidingKeys,
              lastValidPositions := ui.lastValidPositions },
      counters := counters,
      screenPos := (lookupPos key ui.lastValidPositions).getD ⟨px, pz⟩ }
  else
    { ui := { collidingKeys := removeKey key ui.collidingKeys,
              lastValidPositions := setPos key c ui.lastValidPositions },
      counters := counters.map (fun c0 =>
        if c0.id = ctr.id then { c0 with position := some ⟨some c.x, some c.z⟩ } else c0),
      screenPos := c }

/-! ## Theorems -/

/-- C2: `intersects(a, b)` holds exactly when the two boxes overlap on
open intervals in both axes; boxes that merely share an edge
(`a.maxX == b.minX`) are not reported as colliding. -/
theorem intersects_iff_strict_overlap (a b : Aabb) :
    (intersects a b = true ↔
      (a.minX < b.maxX ∧ a.maxX > b.minX ∧ a.minZ < b.maxZ ∧ a.maxZ > b.minZ))
    ∧ (a.maxX = b.minX → intersects a b = false) := by
  constructor
  · simp [intersects, not_or]
    tauto
  · intro h
    simp [intersects, h]

theorem intersects_iff_strict_overlap_witness :
    intersects ⟨"a", "A", 0, 1, 0, 1⟩ ⟨"b", "B", 1, 2, 0, 1⟩ = false :=
  (intersects_iff_strict_overlap ⟨"a", "A", 0, 1, 0, 1⟩ ⟨"b", "B", 1, 2, 0, 1⟩).2 rfl

/-- C3: for half extents at most half the stand dimensions, the clamped
point lies in `[-width/2+halfW, width/2-halfW] × [-depth/2+halfD, depth/2-halfD]`. -/
theorem clampXZ_bound (x z width depth halfW halfD : ℚ)
    (_hw : 0 < width) (_hd : 0 < depth)
    (h1 : halfW ≤ width / 2) (h2 : halfD ≤ depth / 2) :
    (-width / 2 + halfW ≤ (clampXZ x z width depth halfW halfD).x
      ∧ (clampXZ x z width depth halfW halfD).x ≤ width / 2 - halfW)
    ∧ (-depth / 2 + halfD ≤ (clampXZ x z width depth halfW halfD).z
      ∧ (clampXZ x z width depth halfW halfD).z ≤ depth / 2 - halfD) := by
  simp only [clampXZ]
  exact ⟨⟨le_min (by linarith) (le_max_left _ _), min_le_left _ _⟩,
    ⟨le_min (by linarith) (le_max_left _ _), min_le_left _ _⟩⟩

theorem clampXZ_bound_witness :
    (-(6 : ℚ) / 2 + 0.45 ≤ (clampXZ 5 5 6 4 0.45 0.25).x
      ∧ (clampXZ 5 5 6 4 0.45 0.25).x ≤ (6 : ℚ) / 2 - 0.45)
    ∧ (-(4 : ℚ) / 2 + 0.25 ≤ (clampXZ 5 5 6 4 0.45 0.25).z
      ∧ (clampXZ 5 5 6 4 0.45 0.25).z ≤ (4 : ℚ) / 2 - 0.25) :=
  clampXZ_bound 5 5 6 4 0.45 0.25 (by norm_num) (by norm_num) (by norm_num) (by norm_num)

/-- C9: the clamp is total, and in the degenerate case where the half
extent exceeds half the stand dimension it returns the (empty) legal
interval upper bound `width/2 - halfW` (resp. `depth/2 - halfD`),
independently of the input point. -/
theorem clampXZ_degenerate_total (x z width depth halfW halfD : ℚ) :
    (width / 2 < halfW → (clampXZ x z width depth halfW halfD).x = width / 2 - halfW)
    ∧ (depth / 2 < halfD → (clampXZ x z width depth halfW halfD).z = depth / 2 - halfD) := by
  constructor <;> intro h
  · simp only [clampXZ]
    exact min_eq_left (le_trans (by linarith) (le_max_left _ _))
  · simp only [clampXZ]
    exact min_eq_left (le_trans (by linarith) (le_max_left _ _))

theorem clampXZ_degenerate_total_witness :
    (clampXZ 0 0 1 1 1 1).x = 1 / 2 - 1 :=
  (clampXZ_degenerate_total 0 0 1 1 1 1).1 (by norm_num)

/-- C10: the effective collision clearance is never negative; it is
`max 0 cc` for a numeric configured value and the default `0.2` otherwise,
so boxes built with it never shrink below the raw footprint. -/
theorem effectiveCollisionClearance_spec (cc : Option ℚ) :
    0 ≤ effectiveCollisionClearance cc
    ∧ (∀ v, cc = some v → effectiveCollisionClearance cc = max 0 v)
    ∧ (cc = none → effectiveCollisionClearance cc = 0.2)
    ∧ (∀ (id label : String) (x z w d : ℚ),
        (makeAabb id label x z w d (effectiveCollisionClearance cc)).minX ≤ x - w / 2
        ∧ x + w / 2 ≤ (makeAabb id label x z w d (effectiveCollisionClearance cc)).maxX
        ∧ (makeAabb id label x z w d (effectiveCollisionClearance cc)).minZ ≤ z - d / 2
        ∧ z + d / 2 ≤ (makeAabb id label x z w d (effectiveCollisionClearance cc)).maxZ) := by
  have h0 : 0 ≤ effectiveCollisionClearance cc := le_max_left _ _
  refine ⟨h0, ?_, ?_, ?_⟩
  · intro v hv
    simp [effectiveCollisionClearance, hv]
  · intro hv
    simp [effectiveCollisionClearance, hv, DEFAULT_CLEARANCE]
    norm_num
  · intro id label x z w d
    simp only [makeAabb]
    refine ⟨by linarith, by linarith, by linarith, by linarith⟩

theorem effectiveCollisionClearance_spec_witness :
    effectiveCollisionClearance (some (-0.3)) = max 0 (-0.3) :=
  (effectiveCollisionClearance_spec (some (-0.3))).2.1 (-0.3) rfl

/-- Helper: `findCollision` returns `none` exactly when every box is
ignored or non-intersecting. -/
lemma findCollision_none_iff (c : Aabb) (ign : List String) (boxes : List Aabb) :
    findCollision c boxes ign = none ↔
      ∀ b ∈ boxes, b.id ∈ ign ∨ intersects c b = false := by
  induction boxes with
  | nil => simp [findCollision]
  | cons box rest ih =>
    simp only [findCollision]
    by_cases h1 : box.id ∈ ign
    · rw [if_pos h1, ih]
      simp [h1]
    · rw [if_neg h1]
      by_cases h2 : intersects c box = true
      · rw [if_pos h2]
        simp [h1, h2]
      · rw [if_neg h2, ih]
        simp only [Bool.not_eq_true] at h2
        simp [h1, h2]

/-- Helper: `findCollision` returns `some b` exactly when `b` is the first
box in iteration order that is neither ignored nor disjoint. -/
lemma findCollision_some_iff (c : Aabb) (ign : List String) (b : Aabb)
    (boxes : List Aabb) :
    findCollision c boxes ign = some b ↔
      ∃ pre post, boxes = pre ++ b :: post ∧ b.id ∉ ign ∧ intersects c b = true ∧
        ∀ a ∈ pre, a.id ∈ ign ∨ intersects c a = false := by
  induction boxes with
  | nil =>
    constructor
    · intro h
      simp [findCollision] at h
    · rintro ⟨pre, post, h, -⟩
      cases pre <;> simp_all
  | cons box rest ih =>
    simp only [findCollision]
    by_cases h1 : box.id ∈ ign
    · rw [if_pos h1, ih]
      constructor
      · rintro ⟨pre, post, hb, hnotin, hint, hpre⟩
        refine ⟨box :: pre, post, by simp [hb], hnotin, hint, ?_⟩
        intro a ha
        rcases List.mem_cons.mp ha with rfl | ha
        · exact Or.inl h1
        · exact hpre a ha
      · rintro ⟨pre, post, hb, hnotin, hint, hpre⟩
        cases pre with
        | nil =>
          simp only [List.nil_append, List.cons.injEq] at hb
          exact absurd (hb.1 ▸ h1) hnotin
        | cons a pre' =>
          simp only [List.cons_append, List.cons.injEq] at hb
          exact ⟨pre', post, hb.2, hnotin, hint,
            fun a' ha' => hpre a' (List.mem_cons_of_mem _ ha')⟩
    · rw [if_neg h1]
      by_cases h2 : intersects c box = true
      · rw [if_pos h2]
        constructor
        · intro h
          obtain rfl : box = b := by injection h
          exact ⟨[], rest, rfl, h1, h2, by simp⟩
        · rintro ⟨pre, post, hb, hnotin, hint, hpre⟩
          cases pre with
          | nil =>
            simp only [List.nil_append, List.cons.injEq] at hb
            rw [hb.1]
          | cons a pre' =>
            simp only [List.cons_append, List.cons.injEq] at hb
            rcases hpre box (by simp [hb.1]) with h | h
            · exact absurd h h1
            · rw [h2] at h
              cases h
      · rw [if_neg h2, ih]
        constructor
        · rintro ⟨pre, post, hb, hnotin, hint, hpre⟩
          refine ⟨box :: pre, post, by simp [hb], hnotin, hint, ?_⟩
          intro a ha
          rcases List.mem_cons.mp ha with rfl | ha
          · exact Or.inr (by simpa using h2)
          · exact hpre a ha
        · rintro ⟨pre, post, hb, hnotin, hint, hpre⟩
          cases pre with
          | nil =>
            simp only [List.nil_append, List.cons.injEq] at hb
            exact absurd (hb.1 ▸ hint) h2
          | cons a pre' =>
            simp only [List.cons_append, List.cons.injEq] at hb
            exact ⟨pre', post, hb.2, hnotin, hint,
              fun a' ha' => hpre a' (List.mem_cons_of_mem _ ha')⟩

/-- C4: `findCollision` is a first-match linear scan: it returns the first
box in index iteration order that is not ignored and intersects the
candidate, `none` when no such box exists, and never reports the
candidate's own id when that id is in the ignore set. -/
theorem findCollision_first_match (candidate : Aabb) (boxes : List Aabb)
    (ignored : List String) :
    (∀ b, findCollision candidate boxes ignored = some b ↔
      ∃ pre post, boxes = pre ++ b :: post ∧ b.id ∉ ignored ∧
        intersects candidate b = true ∧
        ∀ a ∈ pre, a.id ∈ ignored ∨ intersects candidate a = false)
    ∧ (findCollision candidate boxes ignored = none ↔
      ∀ b ∈ boxes, b.id ∈ ignored ∨ intersects candidate b = false)
    ∧ (candidate.id ∈ ignored →
      ∀ b, findCollision candidate boxes ignored = some b → b.id ≠ candidate.id) := by
  refine ⟨fun b => findCollision_some_iff candidate ignored b boxes,
    findCollision_none_iff candidate ignored boxes, ?_⟩
  intro hmem b hb he
  obtain ⟨pre, post, -, hnotin, -, -⟩ :=
    (findCollision_some_iff candidate ignored b boxes).mp hb
  exact hnotin (he ▸ hmem)

theorem findCollision_first_match_witness :
    findCollision ⟨"x", "C", 0, 1, 0, 1⟩ [⟨"x", "B", 0, 1, 0, 1⟩] ["x"] = none :=
  (findCollision_first_match ⟨"x", "C", 0, 1, 0, 1⟩ [⟨"x", "B", 0, 1, 0, 1⟩] ["x"]).2.1.mpr
    (by intro b hb; rw [List.mem_singleton.mp hb]; exact Or.inl (by simp))

/-- C6: the back-wall anchor fixes `z = -depth/2 + wallThickness +
panelGap + offset` with `rotationY = 0`; for the 6×4 stand with wall
thickness 0.06 and panel gap 0.01 and offset 0 this is exactly `-1.93`. -/
theorem wall_anchor_back_exact (ctx : InteractionContext) (offset : ℚ)
    (hx : Option ℚ) (p : XZ) :
    ((applyInteractionRules screenProfile p ctx
        ⟨some .wall, some .back, some ⟨hx, some offset⟩, none⟩).position.z
      = -ctx.depth / 2 + ctx.wallThickness + ctx.panelGap + offset
    ∧ (applyInteractionRules screenProfile p ctx
        ⟨some .wall, some .back, some ⟨hx, some offset⟩, none⟩).rotationY = some 0)
    ∧ ((applyInteractionRules screenProfile p ⟨6, 4, 0.025, 0.06, 0.01⟩
        ⟨some .wall, some .back, some ⟨hx, some 0⟩, none⟩).position.z = -1.93
    ∧ (applyInteractionRules screenProfile p ⟨6, 4, 0.025, 0.06, 0.01⟩
        ⟨some .wall, some .back, some ⟨hx, some 0⟩, none⟩).rotationY = some 0) := by
  have hgen : ∀ (c : InteractionContext) (off : ℚ),
      applyInteractionRules screenProfile p c
          ⟨some .wall, some .back, some ⟨hx, some off⟩, none⟩ =
        { position := ⟨(clampXZ (snapToGrid p.x (some 0.05))
              (-c.depth / 2 + c.wallThickness + c.panelGap + off) c.width c.depth
              ((orElseQ none hx).getD 0) 0).x,
            -c.depth / 2 + c.wallThickness + c.panelGap + off⟩,
          rotationY := some 0, wallSide := some .back } := by
    intro c off
    simp [applyInteractionRules, screenProfile, orElseQ, Option.getD]
  refine ⟨⟨?_, ?_⟩, ?_, ?_⟩
  · rw [hgen]
  · rw [hgen]
  · rw [hgen]
    norm_num
  · rw [hgen]

/-- C7: each detailed counter without an explicit size contributes a box
whose footprint defaults by variant (`premium` 1.4×0.6, others 0.9×0.5),
expanded by the clearance on every side around the stored position. -/
theorem buildSceneAabbs_counter_defaults (cfg : StandConfig) (clearance : ℚ)
    (ctr : DetailedCounter)
    (hmem : ctr ∈ cfg.modules.countersDetailed) (hsize : ctr.size = none) :
    counterAabb cfg.modules.counterVariant clearance ctr ∈ buildSceneAabbs cfg clearance
    ∧ (ctr.variant.getD (cfg.modules.counterVariant.getD .basic) = .premium →
      counterAabb cfg.modules.counterVariant clearance ctr =
        { id := "ctr-d-" ++ ctr.id, label := "Counter",
          minX := (ctr.position.bind (·.x)).getD 0 - 1.4 / 2 - clearance,
          maxX := (ctr.position.bind (·.x)).getD 0 + 1.4 / 2 + clearance,
          minZ := (ctr.position.bind (·.z)).getD 0 - 0.6 / 2 - clearance,
          maxZ := (ctr.position.bind (·.z)).getD 0 + 0.6 / 2 + clearance })
    ∧ (ctr.variant.getD (cfg.modules.counterVariant.getD .basic) ≠ .premium →
      counterAabb cfg.modules.counterVariant clearance ctr =
        { id := "ctr-d-" ++ ctr.id, label := "Counter",
          minX := (ctr.position.bind (·.x)).getD 0 - 0.9 / 2 - clearance,
          maxX := (ctr.position.bind (·.x)).getD 0 + 0.9 / 2 + clearance,
          minZ := (ctr.position.bind (·.z)).getD 0 - 0.5 / 2 - clearance,
          maxZ := (ctr.position.bind (·.z)).getD 0 + 0.5 / 2 + clearance }) := by
  refine ⟨?_, ?_, ?_⟩
  · simp only [buildSceneAabbs, List.mem_append]
    exact Or.inl (Or.inl (Or.inr (List.mem_map_of_mem _ hmem)))
  · intro hv
    simp only [counterAabb, makeAabb, hsize, Option.bind, hv, if_pos rfl]
    refine Aabb.mk.injEq .. ▸ ?_
    norm_num
    refine ⟨by ring, by ring, by ring, by ring⟩
  · intro hv
    simp only [counterAabb, makeAabb, hsize, Option.bind, if_neg hv]
    refine Aabb.mk.injEq .. ▸ ?_
    norm_num
    refine ⟨by ring, by ring, by ring, by ring⟩

def ctrPremium : DetailedCounter := ⟨"c1", some .premium, none, some ⟨some 1, some 2⟩⟩

def cfgCounterOnly : StandConfig :=
  ⟨6, 4, ⟨false, none, none, [ctrPremium], [], false, none, none⟩⟩

theorem buildSceneAabbs_counter_defaults_witness :
    counterAabb cfgCounterOnly.modules.counterVariant 0.2 ctrPremium ∈
      buildSceneAabbs cfgCounterOnly 0.2 :=
  (buildSceneAabbs_counter_defaults cfgCounterOnly 0.2 ctrPremium
    (List.mem_singleton.mpr rfl) rfl).1

/-- Values `w`, `t`, `x`, `z` of a detailed screen as the scene index reads them. -/
def screenW (scr : DetailedScreen) : ℚ := (scr.size.bind (·.w)).getD 0.9

def screenT (scr : DetailedScreen) : ℚ := (scr.size.bind (·.t)).getD 0.02

def screenX (scr : DetailedScreen) : ℚ := (scr.position.bind (·.x)).getD 0

def screenZ (scr : DetailedScreen) : ℚ := (scr.position.bind (·.z)).getD 0

/-- A floor-mounted detailed screen with no explicit size. -/
def scrFloorNoSize : DetailedScreen :=
  ⟨"s1", none, some .floor, none, some ⟨some 0, some 0⟩, none⟩

/-- C8 counterexample: for a floor-mounted screen with an absent size the
thickness defaults to `0.02` (half extent `0.01` at clearance 0), not to
`0.1` (half extent `0.05`) as the claim states. -/
theorem screen_floor_thickness_counterexample :
    (screenAabb 0 scrFloorNoSize).maxZ = 0.01
    ∧ (screenAabb 0 scrFloorNoSize).maxZ ≠ 0.05 := by
  have h : screenAabb 0 scrFloorNoSize = makeAabb "scr-d-s1" "Screen" 0 0 0.9 0.02 0 := by
    simp [screenAabb, scrFloorNoSize]
    norm_num
  rw [h]
  simp [makeAabb]
  norm_num

/-- C8 amended: every detailed screen produces exactly one box; for wall
mount with side left/right the footprint is (thickness, falling back to
0.05 when zero) × width, for side back it is width × that thickness, and
for floor mount it is width × thickness where the thickness defaults to
0.02 when the field is absent and is replaced by 0.1 only when it is
exactly zero; every box is padded by the clearance on all sides. -/
theorem buildSceneAabbs_screen_boxes (cfg : StandConfig) (clearance : ℚ)
    (scr : DetailedScreen) :
    (∃ pre post, buildSceneAabbs cfg clearance =
      pre ++ cfg.modules.detailedScreens.map (screenAabb clearance) ++ post)
    ∧ (scr ∈ cfg.modules.detailedScreens →
      screenAabb clearance scr ∈ buildSceneAabbs cfg clearance)
    ∧ (scr.mount.getD .wall = .wall →
        (scr.wallSide.getD .back = .left ∨ scr.wallSide.getD .back = .right) →
      screenAabb clearance scr =
        { id := "scr-d-" ++ scr.id, label := "Screen",
          minX := screenX scr - (if screenT scr = 0 then 0.05 else screenT scr) / 2 - clearance,
          maxX := screenX scr + (if screenT scr = 0 then 0.05 else screenT scr) / 2 + clearance,
          minZ := screenZ scr - screenW scr / 2 - clearance,
          maxZ := screenZ scr + screenW scr / 2 + clearance })
    ∧ (scr.mount.getD .wall = .wall → scr.wallSide.getD .back = .back →
      screenAabb clearance scr =
        { id := "scr-d-" ++ scr.id, label := "Screen",
          minX := screenX scr - screenW scr / 2 - clearance,
          maxX := screenX scr + screenW scr / 2 + clearance,
          minZ := screenZ scr - (if screenT scr = 0 then 0.05 else screenT scr) / 2 - clearance,
          maxZ := screenZ scr + (if screenT scr = 0 then 0.05 else screenT scr) / 2 + clearance })
    ∧ (scr.mount.getD .wall = .floor →
      screenAabb clearance scr =
        { id := "scr-d-" ++ scr.id, label := "Screen",
          minX := screenX scr - screenW scr / 2 - clearance,
          maxX := screenX scr + screenW scr / 2 + clearance,
          minZ := screenZ scr - (if screenT scr = 0 then 0.1 else screenT scr) / 2 - clearance,
          maxZ := screenZ scr + (if screenT scr = 0 then 0.1 else screenT scr) / 2 + clearance }) := by
  refine ⟨⟨cabinAabbs cfg clearance
      ++ cfg.modules.countersDetailed.map (counterAabb cfg.modules.counterVariant clearance),
    trussAabbs cfg clearance, rfl⟩, ?_, ?_, ?_, ?_⟩
  · intro hmem
    simp only [buildSceneAabbs, List.mem_append]
    exact Or.inl (Or.inr (List.mem_map_of_mem _ hmem))
  · intro hmount hside
    simp only [screenAabb, makeAabb, screenX, screenZ, screenW, screenT, hmount, hside,
      if_pos rfl, if_pos hside]
    refine Aabb.mk.injEq .. ▸ ⟨rfl, rfl, by ring, by ring, by ring, by ring⟩
  · intro hmount hside
    have hside' : ¬(scr.wallSide.getD WallSide.back = .left
        ∨ scr.wallSide.getD WallSide.back = .right) := by
      rw [hside]; rintro (h | h) <;> cases h
    simp only [screenAabb, makeAabb, screenX, screenZ, screenW, screenT, hmount,
      if_pos rfl, if_neg hside']
    refine Aabb.mk.injEq .. ▸ ⟨rfl, rfl, by ring, by ring, by ring, by ring⟩
  · intro hmount
    have hwall : ¬(scr.mount.getD Mount.wall = .wall) := by
      rw [hmount]; rintro h; cases h
    simp only [screenAabb, makeAabb, screenX, screenZ, screenW, screenT, hmount,
      if_neg hwall, if_pos rfl, if_true, ite_true, eq_self_iff_true]
    refine Aabb.mk.injEq .. ▸ ⟨rfl, rfl, by ring, by ring, by ring, by ring⟩

/-- A floor-mounted screen whose explicit thickness is zero. -/
def scrFloorZeroT : DetailedScreen :=
  ⟨"s2", some ⟨none, none, some 0⟩, some .floor, none, none, none⟩

/-- Helper: the collision outcome for a single candidate is clean exactly
when the scan over the index finds nothing. -/
lemma findCollisionForMany_singleton_not_collided (c : Aabb) (boxes : List Aabb)
    (ign : List String) :
    (findCollisionForMany [c] boxes ign).collided = false ↔
      findCollision c boxes ign = none := by
  cases h : findCollision c boxes ign <;>
    simp [findCollisionForMany, h]

lemma mem_addKey_self (k : String) (l : List String) : k ∈ addKey k l := by
  by_cases h : k ∈ l <;> simp [addKey, h]

lemma not_mem_removeKey_self (k : String) (l : List String) : k ∉ removeKey k l := by
  simp [removeKey, List.mem_filter]

lemma lookupPos_setPos_self (k : String) (v : XZ) (l : List (String × XZ)) :
    lookupPos k (setPos k v l) = some v := by
  simp [setPos, lookupPos]

/-- C1: one counter drag tick. If the collision check over the scene index
(own key ignored) hits, nothing is written to the store, the rollback
cache is untouched and the on-screen position reverts to the cached last
valid position (falling back to the stored one); otherwise the clamped
placement is committed to the store, the cache is refreshed to it, and
the committed candidate box is disjoint from every foreign box of the
scene index — so only collision-checked positions are ever written. -/
theorem counter_drag_tick_spec (width depth clearance : ℚ) (scene : List Aabb)
    (counters : List DetailedCounter) (cfgVariant : Option CounterVariant)
    (ctr : DetailedCounter) (ui : UiState) (pos : XZ) :
    ((findCollisionForMany [counterCandidate width depth clearance cfgVariant ctr pos]
        scene [counterKey ctr]).collided = true →
      (counterOnChange width depth clearance scene counters cfgVariant ctr ui pos).counters
          = counters
      ∧ (counterOnChange width depth clearance scene counters cfgVariant ctr ui
          pos).ui.lastValidPositions = ui.lastValidPositions
      ∧ counterKey ctr ∈ (counterOnChange width depth clearance scene counters cfgVariant
          ctr ui pos).ui.collidingKeys
      ∧ (∀ v, lookupPos (counterKey ctr) ui.lastValidPositions = some v →
          (counterOnChange width depth clearance scene counters cfgVariant ctr ui
            pos).screenPos = v)
      ∧ (lookupPos (counterKey ctr) ui.lastValidPositions = none →
          (counterOnChange width depth clearance scene counters cfgVariant ctr ui
            pos).screenPos =
            ⟨(ctr.position.bind (·.x)).getD 0, (ctr.position.bind (·.z)).getD 0⟩))
    ∧ ((findCollisionForMany [counterCandidate width depth clearance cfgVariant ctr pos]
        scene [counterKey ctr]).collided = false →
      (counterOnChange width depth clearance scene counters cfgVariant ctr ui
          pos).screenPos = counterClamp width depth cfgVariant ctr pos
      ∧ lookupPos (counterKey ctr) (counterOnChange width depth clearance scene counters
          cfgVariant ctr ui pos).ui.lastValidPositions
          = some (counterClamp width depth cfgVariant ctr pos)
      ∧ counterKey ctr ∉ (counterOnChange width depth clearance scene counters cfgVariant
          ctr ui pos).ui.collidingKeys
      ∧ (∀ c0 ∈ (counterOnChange width depth clearance scene counters cfgVariant ctr ui
          pos).counters, c0.id ≠ ctr.id → c0 ∈ counters)
      ∧ (∀ c0 ∈ (counterOnChange width depth clearance scene counters cfgVariant ctr ui
          pos).counters, c0.id = ctr.id →
          c0.position = some ⟨some (counterClamp width depth cfgVariant ctr pos).x,
            some (counterClamp width depth cfgVariant ctr pos).z⟩)
      ∧ (∀ b ∈ scene, b.id ≠ counterKey ctr →
          intersects (counterCandidate width depth clearance cfgVariant ctr pos) b
            = false)) := by
  constructor
  · intro hcol
    simp only [counterOnChange, hcol, if_true, ite_true]
    refine ⟨by trivial, by trivial, mem_addKey_self _ _, ?_, ?_⟩
    · intro v hv
      simp [hv]
    · intro hv
      simp [hv]
  · intro hcol
    simp only [counterOnChange, hcol, Bool.false_eq_true, if_false, ite_false]
    refine ⟨by trivial, lookupPos_setPos_self _ _ _, not_mem_removeKey_self _ _, ?_, ?_, ?_⟩
    · intro c0 hc0 hne
      obtain ⟨c1, hc1, rfl⟩ := List.mem_map.mp hc0
      by_cases h : c1.id = ctr.id
      · rw [if_pos h] at hne ⊢
        exact absurd h hne
      · rw [if_neg h]
        exact hc1
    · intro c0 hc0 hid
      obtain ⟨c1, hc1, rfl⟩ := List.mem_map.mp hc0
      by_cases h : c1.id = ctr.id
      · rw [if_pos h]
      · rw [if_neg h] at hid ⊢
        exact absurd hid h
    · intro b hb hne
      have hnone : findCollision (counterCandidate width depth clearance cfgVariant ctr pos)
          scene [counterKey ctr] = none :=
        (findCollisionForMany_singleton_not_collided _ _ _).mp hcol
      rcases (findCollision_none_iff _ _ _).mp hnone b hb with h | h
      · exact absurd (List.mem_singleton.mp h) hne
      · exact h

/-- Helper: one clamp pass is idempotent (a lattice identity, valid even
for an empty legal interval). -/
lemma clamp_min_max_idem (lo hi v : ℚ) :
    min hi (max lo (min hi (max lo v))) = min hi (max lo v) := by
  rw [max_min_distrib_left, ← max_assoc, max_self, ← min_assoc,
    min_eq_left (le_max_right lo hi)]

/-- Property that `b` is an integer multiple of the grid step `g`. -/
def multipleOf (b g : ℚ) : Prop := ∃ k : ℤ, b = (k : ℚ) * g

lemma multipleOf_max {a b g : ℚ} (hg : 0 < g) (ha : multipleOf a g)
    (hb : multipleOf b g) : multipleOf (max a b) g := by
  obtain ⟨k1, rfl⟩ := ha
  obtain ⟨k2, rfl⟩ := hb
  exact ⟨max k1 k2, by rw [Int.cast_max, max_mul_of_nonneg _ _ hg.le]⟩

lemma multipleOf_min {a b g : ℚ} (hg : 0 < g) (ha : multipleOf a g)
    (hb : multipleOf b g) : multipleOf (min a b) g := by
  obtain ⟨k1, rfl⟩ := ha
  obtain ⟨k2, rfl⟩ := hb
  exact ⟨min k1 k2, by rw [Int.cast_min, min_mul_of_nonneg _ _ hg.le]⟩

/-- Helper: snapping fixes every integer multiple of the grid step. -/
lemma snapToGrid_int_mul (k : ℤ) (g : ℚ) (hg : 0 < g) :
    snapToGrid ((k : ℚ) * g) (some g) = (k : ℚ) * g := by
  simp only [snapToGrid, if_neg (not_le.mpr hg)]
  rw [mul_div_cancel_right₀ _ (ne_of_gt hg)]
  have h : ⌊(k : ℚ) + 1 / 2⌋ = k := by
    rw [Int.floor_int_add]
    norm_num
  rw [h]

lemma snapToGrid_multiple {b g : ℚ} (hg : 0 < g) (h : multipleOf b g) :
    snapToGrid b (some g) = b := by
  obtain ⟨k, rfl⟩ := h
  exact snapToGrid_int_mul k g hg

/-- Helper: snapping, then clamping to grid-aligned bounds, then snapping
again is a fixpoint of the second snap. -/
lemma snapToGrid_clamp_fix (a lo hi : ℚ) (gs : Option ℚ)
    (hmul : ∀ g, gs = some g → 0 < g → multipleOf lo g ∧ multipleOf hi g) :
    snapToGrid (min hi (max lo (snapToGrid a gs))) gs
      = min hi (max lo (snapToGrid a gs)) := by
  cases gs with
  | none => rfl
  | some g =>
    by_cases hg : g ≤ 0
    · simp [snapToGrid, hg]
    · have hg' : 0 < g := lt_of_not_le hg
      obtain ⟨hlo, hhi⟩ := hmul g rfl hg'
      have hs : multipleOf (snapToGrid a (some g)) g :=
        ⟨⌊a / g + 1 / 2⌋, by simp [snapToGrid, hg]⟩
      exact snapToGrid_multiple hg'
        (multipleOf_min hg' hhi (multipleOf_max hg' hlo hs))

/-- Helper: the floor-mount branch of `applyInteractionRules` is
snap-then-clamp with the profile defaults. -/
lemma applyInteractionRules_floor_eq (profile : InteractionProfile) (p : XZ)
    (context : InteractionContext) (options : InteractionOptions)
    (hm : options.mount.getD .floor ≠ .wall)
    (hf : Level.floor ∈ profile.allowedLevels) :
    applyInteractionRules profile p context options =
      { position := clampXZ (snapToGrid p.x profile.gridSnap)
          (snapToGrid p.z profile.gridSnap) context.width context.depth
          ((options.halfSize.bind (·.x)).getD 0) ((options.halfSize.bind (·.z)).getD 0),
        rotationY := profile.defaultRotation,
        wallSide := options.wallSide } := by
  simp only [applyInteractionRules]
  rw [if_neg (fun h => hm h.1), if_pos hf]

/-- C5 counterexample input: counter profile (grid 0.05) on a 6×4 stand
with half extent 0.48 in x, so the clamp bound 2.52 is not grid aligned. -/
def ctxStand : InteractionContext := ⟨6, 4, 0.025, 0.06, 0.01⟩

def optsCounter48 : InteractionOptions := ⟨none, none, some ⟨some 0.48, some 0⟩, none⟩

/-- C5 counterexample: normalization is not idempotent as claimed — the
first pass clamps x to 2.52, the second pass re-snaps it to 2.5. -/
theorem normalize_idempotence_counterexample :
    applyInteractionRules counterProfile
        (applyInteractionRules counterProfile ⟨10, 0⟩ ctxStand optsCounter48).position
        ctxStand optsCounter48
      ≠ applyInteractionRules counterProfile ⟨10, 0⟩ ctxStand optsCounter48 := by
  have hm : optsCounter48.mount.getD Mount.floor ≠ Mount.wall := by
    simp [optsCounter48]
  have hf : Level.floor ∈ counterProfile.allowedLevels := by
    simp [counterProfile]
  have h1 : applyInteractionRules counterProfile ⟨10, 0⟩ ctxStand optsCounter48
      = { position := ⟨2.52, 0⟩, rotationY := some 0, wallSide := none } := by
    rw [applyInteractionRules_floor_eq counterProfile ⟨10, 0⟩ ctxStand optsCounter48 hm hf]
    simp only [counterProfile, ctxStand, optsCounter48, snapToGrid, clampXZ]
    norm_num [min_def, max_def]
  have h2 : applyInteractionRules counterProfile ⟨2.52, 0⟩ ctxStand optsCounter48
      = { position := ⟨2.5, 0⟩, rotationY := some 0, wallSide := none } := by
    rw [applyInteractionRules_floor_eq counterProfile ⟨2.52, 0⟩ ctxStand optsCounter48 hm hf]
    simp only [counterProfile, ctxStand, optsCounter48, snapToGrid, clampXZ]
    norm_num [min_def, max_def]
  rw [h1]
  have h3 : ({ position := ⟨2.52, 0⟩, rotationY := some 0, wallSide := none } :
      InteractionResult).position = ⟨2.52, 0⟩ := rfl
  rw [h3, h2]
  simp only [ne_eq, InteractionResult.mk.injEq, XZ.mk.injEq]
  norm_num

/-- C5 amended: for floor-mounted profiles the placement normalizer is
idempotent provided the clamp bounds determined by the stand and the half
extents are integer multiples of the profile's grid step (in particular
whenever the profile has no positive grid snap); re-clamping alone is
always idempotent, but re-snapping a clamped coordinate can move it when
a clamp bound is not grid aligned. -/
theorem applyInteractionRules_floor_idempotent (profile : InteractionProfile)
    (p : XZ) (context : InteractionContext) (options : InteractionOptions)
    (hm : options.mount = none ∨ options.mount = some Mount.floor)
    (hf : Level.floor ∈ profile.allowedLevels)
    (hsnap : ∀ g, profile.gridSnap = some g → 0 < g →
      multipleOf (-context.width / 2 + (options.halfSize.bind (·.x)).getD 0) g ∧
      multipleOf (context.width / 2 - (options.halfSize.bind (·.x)).getD 0) g ∧
      multipleOf (-context.depth / 2 + (options.halfSize.bind (·.z)).getD 0) g ∧
      multipleOf (context.depth / 2 - (options.halfSize.bind (·.z)).getD 0) g) :
    applyInteractionRules profile
        (applyInteractionRules profile p context options).position context options
      = applyInteractionRules profile p context options := by
  have hm' : options.mount.getD .floor ≠ .wall := by
    rcases hm with h | h <;> simp [h]
  rw [applyInteractionRules_floor_eq profile p context options hm' hf,
    applyInteractionRules_floor_eq profile _ context options hm' hf]
  simp only [InteractionResult.mk.injEq, and_true, true_and]
  have hx := snapToGrid_clamp_fix p.x
    (-context.width / 2 + (options.halfSize.bind (·.x)).getD 0)
    (context.width / 2 - (options.halfSize.bind (·.x)).getD 0) profile.gridSnap
    (fun g hg hg' => ⟨(hsnap g hg hg').1, (hsnap g hg hg').2.1⟩)
  have hz := snapToGrid_clamp_fix p.z
    (-context.depth / 2 + (options.halfSize.bind (·.z)).getD 0)
    (context.depth / 2 - (options.halfSize.bind (·.z)).getD 0) profile.gridSnap
    (fun g hg hg' => ⟨(hsnap g hg hg').2.2.1, (hsnap g hg hg').2.2.2⟩)
  simp only [clampXZ, XZ.mk.injEq]
  rw [hx, hz]
  exact ⟨clamp_min_max_idem _ _ _, clamp_min_max_idem _ _ _⟩

/-- Grid-aligned witness input: half extents 0.45/0.25 on the 6×4 stand,
so the clamp bounds ±2.55 and ±1.75 are multiples of 0.05. -/
def optsCounter45 : InteractionOptions := ⟨none, none, some ⟨some 0.45, some 0.25⟩, none⟩

theorem applyInteractionRules_floor_idempotent_witness :
    applyInteractionRules counterProfile
        (applyInteractionRules counterProfile ⟨10, 10⟩ ctxStand optsCounter45).position
        ctxStand optsCounter45
      = applyInteractionRules counterProfile ⟨10, 10⟩ ctxStand optsCounter45 :=
  applyInteractionRules_floor_idempotent counterProfile ⟨10, 10⟩ ctxStand optsCounter45
    (Or.inl rfl) (by simp [counterProfile])
    (by
      intro g hg hg'
      simp only [counterProfile] at hg
      obtain rfl : (0.05 : ℚ) = g := by injection hg
      refine ⟨⟨-51, by norm_num [ctxStand, optsCounter45]⟩,
        ⟨51, by norm_num [ctxStand, optsCounter45]⟩,
        ⟨-35, by norm_num [ctxStand, optsCounter45]⟩,
        ⟨35, by norm_num [ctxStand, optsCounter45]⟩⟩)

/-- A detailed counter used to exercise the drag tick. -/
def ctrDrag : DetailedCounter := ⟨"c1", none, none, some ⟨some 0, some 0⟩⟩

theorem counter_drag_tick_spec_witness :
    (counterOnChange 6 4 0.2 [] [ctrDrag] none ctrDrag ⟨[], []⟩ ⟨10, 0⟩).screenPos
      = counterClamp 6 4 none ctrDrag ⟨10, 0⟩ :=
  ((counter_drag_tick_spec 6 4 0.2 [] [ctrDrag] none ctrDrag ⟨[], []⟩ ⟨10, 0⟩).2 rfl).1

theorem buildSceneAabbs_screen_boxes_witness :
    screenAabb 0.2 scrFloorZeroT =
      { id := "scr-d-" ++ scrFloorZeroT.id, label := "Screen",
        minX := screenX scrFloorZeroT - screenW scrFloorZeroT / 2 - 0.2,
        maxX := screenX scrFloorZeroT + screenW scrFloorZeroT / 2 + 0.2,
        minZ := screenZ scrFloorZeroT
          - (if screenT scrFloorZeroT = 0 then 0.1 else screenT scrFloorZeroT) / 2 - 0.2,
        maxZ := screenZ scrFloorZeroT
          + (if screenT scrFloorZeroT = 0 then 0.1 else screenT scrFloorZeroT) / 2 + 0.2 } :=
  (buildSceneAabbs_screen_boxes cfgCounterOnly 0.2 scrFloorZeroT).2.2.2.2 rfl

end Designer
